import Mathlib

/-!
# Verification of the librealsense sensor layer (src/src/sensor.h)

Shallow embedding of the sensor-abstraction layer: stream-profile
resolution, sensor lifecycle, UVC power reference counting, the scoped
power guard, HID fps-to-sampling-frequency lookup, HID per-physical-sensor
configuration tracking, and the fourcc tables.

The repository snapshot contains only the interface header
`src/src/sensor.h`; method bodies live in a `sensor.cpp` that is not part
of the snapshot.  Definitions whose doc comment starts `Modelled from the
spec:` embed such a missing body faithfully from the specification's
words; everything else is translated directly from the header.
-/

namespace Librealsense

/-- The stream kinds used by the sensor layer (subset of the `rs2_stream`
enum that the header mentions, plus the video streams used in profile
requests). -/
inductive Rs2Stream
  | depth
  | color
  | infrared
  | fisheye
  | gyro
  | accel
  | gpio1
  | gpio2
  | gpio3
  | gpio4
deriving DecidableEq, Repr

/-- The error taxonomy of the sensor layer (spec section 7). -/
inductive RsError
  | unsupportedRequest
  | invalidStateTransition
  | notImplemented
  | backendFailure
  | unknownFrequency
deriving DecidableEq, Repr

/-- Association-list lookup, modelling `std::map::find` (keys are unique in
a `std::map`; lookup returns the first matching entry). -/
def lookupA {α β : Type} [DecidableEq α] : List (α × β) → α → Option β
  | [], _ => none
  | (k, v) :: rest, key => if key = k then some v else lookupA rest key

/-- Value of a C++ four-character literal such as `'GYRO'` (GCC packs the
characters big-endian into a 32-bit integer). -/
def fourcc (a b c d : Char) : Nat :=
  ((a.toNat * 256 + b.toNat) * 256 + c.toNat) * 256 + d.toNat

/-- The constant member `hid_sensor::stream_and_fourcc`
(src/src/sensor.h lines 140-145), entry for entry. -/
def stream_and_fourcc : List (Rs2Stream × Nat) :=
  [ (Rs2Stream.gyro,  fourcc 'G' 'Y' 'R' 'O'),
    (Rs2Stream.accel, fourcc 'A' 'C' 'C' 'L'),
    (Rs2Stream.gpio1, fourcc 'G' 'P' 'I' 'O'),
    (Rs2Stream.gpio2, fourcc 'G' 'P' 'I' 'O'),
    (Rs2Stream.gpio3, fourcc 'G' 'P' 'I' 'O'),
    (Rs2Stream.gpio4, fourcc 'G' 'P' 'I' 'O') ]

/-- Modelled from the spec: the body of `hid_sensor::stream_to_fourcc` is
not in the snapshot; per spec section 4.5 it maps a logical stream kind to
its four-character type code by looking it up in `stream_and_fourcc`
(the table itself is in the header). -/
def stream_to_fourcc (stream : Rs2Stream) : Nat :=
  (lookupA stream_and_fourcc stream).getD 0

/-- C10: `stream_to_fourcc` is not injective over the GPIO streams: all
four GPIO stream kinds map to the identical code `'GPIO'`, while GYRO maps
to `'GYRO'` and ACCEL to `'ACCL'`; hence the fourcc tag on a frame does
not identify which GPIO logical stream produced it. -/
theorem stream_to_fourcc_gpio_collision :
    stream_to_fourcc Rs2Stream.gpio1 = fourcc 'G' 'P' 'I' 'O' ∧
    stream_to_fourcc Rs2Stream.gpio2 = fourcc 'G' 'P' 'I' 'O' ∧
    stream_to_fourcc Rs2Stream.gpio3 = fourcc 'G' 'P' 'I' 'O' ∧
    stream_to_fourcc Rs2Stream.gpio4 = fourcc 'G' 'P' 'I' 'O' ∧
    stream_to_fourcc Rs2Stream.gyro = fourcc 'G' 'Y' 'R' 'O' ∧
    stream_to_fourcc Rs2Stream.accel = fourcc 'A' 'C' 'C' 'L' ∧
    Rs2Stream.gpio1 ≠ Rs2Stream.gpio2 ∧
    stream_to_fourcc Rs2Stream.gpio1 = stream_to_fourcc Rs2Stream.gpio2 := by
  decide

/-! ## UVC power reference counting (`uvc_sensor::_user_count`) -/

/-- The power-relevant state of a `uvc_sensor`: the reference count
`_user_count` (an `std::atomic<int>`, modelled as `Int` so that
non-negativity is a theorem, not a typing artifact) and whether the
backend device is physically powered (`D0` vs `D3`). -/
structure PowerState where
  user_count : Int
  powered : Bool
deriving DecidableEq, Repr

/-- A freshly constructed `uvc_sensor`: `_user_count(0)`, device unpowered. -/
def initPower : PowerState := ⟨0, false⟩

/-- Modelled from the spec: the body of `uvc_sensor::acquire_power` is not
in the snapshot; per spec section 4.3, acquiring increments the shared
reference count and powers the device on exactly at the 0 to 1
transition. -/
def acquire_power (s : PowerState) : PowerState :=
  { user_count := s.user_count + 1,
    powered := if s.user_count = 0 then true else s.powered }

/-- Modelled from the spec: the body of `uvc_sensor::release_power` is not
in the snapshot; per spec section 4.3, releasing decrements the shared
reference count and powers the device off exactly at the 1 to 0
transition. -/
def release_power (s : PowerState) : PowerState :=
  { user_count := s.user_count - 1,
    powered := if s.user_count - 1 = 0 then false else s.powered }

/-- One power operation of some logical scope. -/
inductive PowerOp
  | acq
  | rel
deriving DecidableEq, Repr

/-- Number of acquires in a trace. -/
def acquires (t : List PowerOp) : Nat :=
  t.countP (fun o => decide (o = PowerOp.acq))

/-- Number of releases in a trace. -/
def releases (t : List PowerOp) : Nat :=
  t.countP (fun o => decide (o = PowerOp.rel))

/-- Apply one power operation to the power state. -/
def powerStep (s : PowerState) : PowerOp → PowerState
  | PowerOp.acq => acquire_power s
  | PowerOp.rel => release_power s

/-- Run a serialized trace of power operations (the `_power_lock` mutex
serializes `acquire_power`/`release_power`, so any concurrent execution is
some interleaved sequential trace). -/
def runPower (s : PowerState) : List PowerOp → PowerState
  | [] => s
  | op :: t => runPower (powerStep s op) t

/-- A trace is an interleaving of scoped acquire/release pairs: every
release is preceded by its matching acquire (so in every prefix releases
never outnumber acquires) and every pair completes (totals agree). -/
def validTrace (t : List PowerOp) : Prop :=
  (∀ p ∈ t.inits, releases p ≤ acquires p) ∧ acquires t = releases t

theorem acquires_append (a b : List PowerOp) :
    acquires (a ++ b) = acquires a + acquires b := by
  simp [acquires, List.countP_append]

theorem releases_append (a b : List PowerOp) :
    releases (a ++ b) = releases a + releases b := by
  simp [releases, List.countP_append]

/-- The reference count after a trace is the acquire/release balance. -/
theorem runPower_user_count (t : List PowerOp) (s : PowerState) :
    (runPower s t).user_count =
      s.user_count + (acquires t : Int) - (releases t : Int) := by
  induction t generalizing s with
  | nil => simp [runPower, acquires, releases]
  | cons op rest ih =>
    cases op with
    | acq =>
      simp only [runPower, powerStep, ih, acquire_power, acquires, releases,
        List.countP_cons]
      simp
      omega
    | rel =>
      simp only [runPower, powerStep, ih, release_power, acquires, releases,
        List.countP_cons]
      simp
      omega

/-- Along any trace whose running balance never drops below the starting
count, the powered flag stays in lockstep with positivity of the count. -/
theorem runPower_powered (t : List PowerOp) (s : PowerState)
    (hpow : s.powered = decide (0 < s.user_count))
    (hnn : ∀ p ∈ t.inits, 0 ≤ s.user_count + (acquires p : Int) - (releases p : Int)) :
    (runPower s t).powered = decide (0 < (runPower s t).user_count) := by
  induction t generalizing s with
  | nil => simpa [runPower] using hpow
  | cons op rest ih =>
    have h0 : (0 : Int) ≤ s.user_count := by
      have := hnn [] (by simp)
      simpa [acquires, releases] using this
    have h1 : 0 ≤ s.user_count + (acquires [op] : Int) - (releases [op] : Int) :=
      hnn [op] (by simp [List.inits])
    have hstep : (powerStep s op).powered =
        decide (0 < (powerStep s op).user_count) := by
      cases op with
      | acq =>
        simp only [powerStep, acquire_power]
        by_cases hz : s.user_count = 0
        · simp [hz]
        · have hpos : 0 < s.user_count := lt_of_le_of_ne h0 (Ne.symm hz)
          simp [hz, hpow]
          omega
      | rel =>
        have hge : (1 : Int) ≤ s.user_count := by
          simp only [acquires, releases, List.countP_cons, List.countP_nil] at h1
          simp at h1
          omega
        simp only [powerStep, release_power]
        by_cases hz : s.user_count - 1 = 0
        · simp [hz]
        · have hpos : 0 < s.user_count - 1 := by omega
          have : (1 : Int) < s.user_count := by omega
          simp [hz, hpow]
          omega
    have hshift : ∀ p ∈ rest.inits,
        0 ≤ (powerStep s op).user_count + (acquires p : Int) - (releases p : Int) := by
      intro p hp
      have hmem : (op :: p) ∈ (op :: rest).inits := by
        rw [List.inits_cons]
        exact List.mem_cons_of_mem _ (List.mem_map_of_mem _ hp)
      have := hnn (op :: p) hmem
      cases op with
      | acq =>
        simp only [powerStep, acquire_power]
        simp only [acquires, releases, List.countP_cons] at this ⊢
        simp at this ⊢
        omega
      | rel =>
        simp only [powerStep, release_power]
        simp only [acquires, releases, List.countP_cons] at this ⊢
        simp at this ⊢
        omega
    exact ih (powerStep s op) hstep hshift

theorem inits_trans {α : Type} {q p t : List α}
    (hq : q ∈ p.inits) (hp : p ∈ t.inits) : q ∈ t.inits := by
  rw [List.mem_inits] at hq hp ⊢
  exact hq.trans hp

/-- C1: starting from a fresh sensor, for any interleaving of scoped
acquire/release pairs the reference count ends at 0 with the device
powered off, and at every sampled instant along the trace the count is
non-negative and the device is physically powered iff the count is
positive.  (The model mutates the count only through `acquire_power` and
`release_power`: those are the only operations of `PowerOp`.) -/
theorem power_refcount_invariant (t : List PowerOp) (h : validTrace t) :
    (runPower initPower t).user_count = 0 ∧
    (runPower initPower t).powered = false ∧
    ∀ p ∈ t.inits,
      0 ≤ (runPower initPower p).user_count ∧
      ((runPower initPower p).powered = true ↔ 0 < (runPower initPower p).user_count) := by
  obtain ⟨hpre, hbal⟩ := h
  have hcount : ∀ p, (runPower initPower p).user_count =
      (acquires p : Int) - (releases p : Int) := by
    intro p
    simpa [initPower] using runPower_user_count p initPower
  have hnnPre : ∀ p ∈ t.inits, 0 ≤ (runPower initPower p).user_count := by
    intro p hp
    rw [hcount]
    have := hpre p hp
    omega
  refine ⟨?_, ?_, ?_⟩
  · rw [hcount]
    omega
  · have hfin : (runPower initPower t).user_count = 0 := by rw [hcount]; omega
    have hself : t ∈ t.inits := by
      rw [List.mem_inits]
    have := runPower_powered t initPower (by simp [initPower])
      (by
        intro p hp
        have := hpre p hp
        simp only [initPower]
        omega)
    rw [this, hfin]
    simp
  · intro p hp
    refine ⟨hnnPre p hp, ?_⟩
    have hpowp : (runPower initPower p).powered =
        decide (0 < (runPower initPower p).user_count) := by
      refine runPower_powered p initPower (by simp [initPower]) ?_
      intro q hq
      have hq' : q ∈ t.inits := inits_trans hq hp
      have := hpre q hq'
      simp only [initPower]
      omega
    rw [hpowp]
    simp

/-- Witness for C1: the interleaving `acq, acq, rel, rel` of two scoped
pairs is valid, ends at count 0 unpowered, and keeps the invariant at
every prefix. -/
theorem power_refcount_invariant_witness :
    validTrace [PowerOp.acq, PowerOp.acq, PowerOp.rel, PowerOp.rel] ∧
    ((runPower initPower [PowerOp.acq, PowerOp.acq, PowerOp.rel, PowerOp.rel]).user_count = 0 ∧
     (runPower initPower [PowerOp.acq, PowerOp.acq, PowerOp.rel, PowerOp.rel]).powered = false ∧
     ∀ p ∈ [PowerOp.acq, PowerOp.acq, PowerOp.rel, PowerOp.rel].inits,
       0 ≤ (runPower initPower p).user_count ∧
       ((runPower initPower p).powered = true ↔ 0 < (runPower initPower p).user_count)) :=
  ⟨by unfold validTrace; decide, power_refcount_invariant _ (by unfold validTrace; decide)⟩

/-! ## Failure-safe power acquisition and `invoke_powered` -/

/-- Modelled from the spec: `uvc_sensor::acquire_power` with a fallible
backend.  The backend power-on call happens only at the 0 to 1 transition
(spec section 4.3); `powerOnOk` says whether that backend call succeeds.
If powering on fails, the reference count is not incremented and the
failure propagates (spec sections 4.3 and 7). -/
def try_acquire_power (powerOnOk : Bool) (s : PowerState) : Except RsError PowerState :=
  if s.user_count = 0 then
    if powerOnOk then Except.ok (acquire_power s)
    else Except.error RsError.backendFailure
  else Except.ok (acquire_power s)

/-- With a healthy backend, the fallible acquire is the plain acquire. -/
theorem try_acquire_power_ok (s : PowerState) :
    try_acquire_power true s = Except.ok (acquire_power s) := by
  unfold try_acquire_power
  by_cases h : s.user_count = 0 <;> simp [h]

/-- `uvc_sensor::invoke_powered` (src/src/sensor.h lines 205-211): builds
a scoped `power` guard (whose constructor acquires and whose destructor
releases) around the wrapped action.  The action itself may succeed or
fail; the guard's destructor runs on both the normal and the unwinding
exit path exactly once. -/
def invoke_powered (powerOnOk : Bool) (s : PowerState)
    (action : Except RsError Nat) : Except RsError Nat × PowerState :=
  match try_acquire_power powerOnOk s with
  | Except.error e => (Except.error e, s)
  | Except.ok s1 =>
    match action with
    | Except.ok a => (Except.ok a, release_power s1)
    | Except.error e => (Except.error e, release_power s1)

/-- C4: power acquisition is failure-safe.  `invoke_powered` always leaves
the reference count at its value before the call (exactly one release per
successful acquire, on the normal and on the failing exit path alike); if
the backend power-on fails, the count is not incremented, the whole state
is untouched and the failure propagates; if power-on succeeds, the
action's own outcome (value or error) propagates unchanged. -/
theorem invoke_powered_balanced (powerOnOk : Bool) (s : PowerState)
    (action : Except RsError Nat) :
    ((invoke_powered powerOnOk s action).2.user_count = s.user_count) ∧
    (powerOnOk = false → s.user_count = 0 →
      invoke_powered powerOnOk s action = (Except.error RsError.backendFailure, s)) ∧
    (powerOnOk = true → (invoke_powered powerOnOk s action).1 = action) := by
  refine ⟨?_, ?_, ?_⟩
  · unfold invoke_powered try_acquire_power
    by_cases hz : s.user_count = 0
    · cases powerOnOk with
      | false => simp [hz]
      | true =>
        cases action <;>
          simp [hz, acquire_power, release_power]
    · cases powerOnOk with
      | false =>
        cases action <;>
          simp [hz, acquire_power, release_power]
      | true =>
        cases action <;>
          simp [hz, acquire_power, release_power]
  · intro hok hz
    subst hok
    unfold invoke_powered try_acquire_power
    simp [hz]
  · intro hok
    subst hok
    unfold invoke_powered
    rw [try_acquire_power_ok]
    cases action <;> simp

/-- Witness for C4: a failing backend at count 0 propagates the failure
without touching the state, and the balance holds at a concrete input. -/
theorem invoke_powered_balanced_witness :
    ((invoke_powered false initPower (Except.ok 7)).2.user_count = initPower.user_count) ∧
    (false = false → initPower.user_count = 0 →
      invoke_powered false initPower (Except.ok 7) =
        (Except.error RsError.backendFailure, initPower)) ∧
    (false = true → (invoke_powered false initPower (Except.ok 7)).1 = Except.ok 7) :=
  invoke_powered_balanced false initPower (Except.ok 7)

/-! ## The scoped `power` guard and its weak owner reference -/

/-- The `power` guard's constructor (src/src/sensor.h lines 230-235):
`_owner.lock()` yields the owning sensor's power state when the sensor is
still alive (`some s`) and nothing when it has been destroyed (`none`);
`acquire_power` runs only in the former case.  The boolean reports
whether an acquire was performed. -/
def guardConstruct (owner : Option PowerState) : Option PowerState × Bool :=
  match owner with
  | some s => (some (acquire_power s), true)
  | none => (none, false)

/-- The `power` guard's destructor (src/src/sensor.h lines 237-241):
locks the weak owner reference again at destruction time and releases
only when the owner is still alive.  The boolean reports whether a
release was performed. -/
def guardDestruct (owner : Option PowerState) : Option PowerState × Bool :=
  match owner with
  | some s => (some (release_power s), true)
  | none => (none, false)

/-- C9: the guard holds only a weak reference to its owner.  If the owner
is already destroyed at construction, no acquire occurs and nothing is
touched; if the owner dies between construction and destruction, the
destructor performs no release (a safe no-op), so the acquire performed
at construction is never matched by a release. -/
theorem power_guard_weak_owner (s : PowerState) :
    guardConstruct none = (none, false) ∧
    guardDestruct none = (none, false) ∧
    (guardConstruct (some s)).2 = true ∧
    (guardConstruct (some s)).1 = some (acquire_power s) ∧
    ((guardConstruct (some s)).2 = true ∧ (guardDestruct none).2 = false) := by
  simp [guardConstruct, guardDestruct]

/-- Witness for C9 at a concrete owner state. -/
theorem power_guard_weak_owner_witness :
    guardConstruct none = (none, false) ∧
    guardDestruct none = (none, false) ∧
    (guardConstruct (some initPower)).2 = true ∧
    (guardConstruct (some initPower)).1 = some (acquire_power initPower) ∧
    ((guardConstruct (some initPower)).2 = true ∧ (guardDestruct none).2 = false) :=
  power_guard_weak_owner initPower

/-! ## Request mapper (`sensor_base::resolve_requests`) -/

/-- A device-native stream profile (`platform::stream_profile` joined with
the stream kind its fourcc decodes to): stream kind, resolution, rate and
device-internal fourcc encoding. -/
structure NativeProfile where
  stream : Rs2Stream
  width : Nat
  height : Nat
  fps : Nat
  fourccCode : Nat
deriving DecidableEq, Repr

/-- A caller-requested stream profile (`stream_profile_interface`):
desired stream kind, resolution, rate and pixel format. -/
structure Request where
  stream : Rs2Stream
  width : Nat
  height : Nat
  fps : Nat
  format : Nat
deriving DecidableEq, Repr

/-- One registered native pixel format entry
(`sensor_base::register_pixel_format`): which fourcc encodings can produce
which (stream, format) outputs. -/
structure PixelFormatReg where
  fourccCode : Nat
  stream : Rs2Stream
  format : Nat
deriving DecidableEq, Repr

/-- Modelled from the spec: the matching policy of the Request Mapper
(spec section 4.1) — requested stream kind, resolution and rate must
exactly equal the native profile's, and the requested pixel format must
resolve to a registered native pixel format entry for that stream. -/
def matchesRequest (registered : List PixelFormatReg) (r : Request)
    (n : NativeProfile) : Bool :=
  decide (n.stream = r.stream) && decide (n.width = r.width) &&
  decide (n.height = r.height) && decide (n.fps = r.fps) &&
  registered.any (fun pf =>
    decide (pf.fourccCode = n.fourccCode) && decide (pf.stream = r.stream) &&
    decide (pf.format = r.format))

/-- The binding of one requested profile to the native profile satisfying
it (`request_mapping`); the native profile is identified by its index in
the sensor's cached native-profile list. -/
structure RequestMapping where
  request : Request
  nativeIdx : Nat
deriving DecidableEq, Repr

/-- Pick a native profile for one request: the first native profile that
matches the request and is not already the target of an earlier mapping
of the same call. -/
def pickNative (natives : List NativeProfile) (registered : List PixelFormatReg)
    (r : Request) (used : List Nat) : Option Nat :=
  (List.range natives.length).find? (fun i =>
    (match natives[i]? with
     | some n => matchesRequest registered r n
     | none => false) && !(decide (i ∈ used)))

/-- Modelled from the spec: the body of `sensor_base::resolve_requests` is
not in the snapshot; per spec section 4.1 it produces one mapping per
request, rejects the whole call with UnsupportedRequest when any request
cannot be matched, and rejects requests that would duplicate a native
profile already targeted in the same call. -/
def resolveGo (natives : List NativeProfile) (registered : List PixelFormatReg) :
    List Request → List Nat → Except RsError (List RequestMapping)
  | [], _ => Except.ok []
  | r :: rs, used =>
    match pickNative natives registered r used with
    | none => Except.error RsError.unsupportedRequest
    | some i =>
      match resolveGo natives registered rs (i :: used) with
      | Except.error e => Except.error e
      | Except.ok ms => Except.ok (⟨r, i⟩ :: ms)

/-- `sensor_base::resolve_requests` (src/src/sensor.h line 79). -/
def resolve_requests (natives : List NativeProfile) (registered : List PixelFormatReg)
    (requests : List Request) : Except RsError (List RequestMapping) :=
  resolveGo natives registered requests []

/-- A successful pick targets a native profile not yet used in this call. -/
theorem pickNative_not_used {natives : List NativeProfile}
    {registered : List PixelFormatReg} {r : Request} {used : List Nat} {i : Nat}
    (h : pickNative natives registered r used = some i) : i ∉ used := by
  have hp := List.find?_some h
  have : !(decide (i ∈ used)) = true := by
    cases hmem : decide (i ∈ used) <;> simp [hmem] at hp ⊢
  simpa using this

/-- Structure of a successful resolution: one mapping per request in
order, all chosen native indices fresh with respect to `used` and
pairwise distinct. -/
theorem resolveGo_ok_spec (natives : List NativeProfile)
    (registered : List PixelFormatReg) (rs : List Request) (used : List Nat)
    (ms : List RequestMapping)
    (h : resolveGo natives registered rs used = Except.ok ms) :
    ms.map RequestMapping.request = rs ∧
    (∀ j ∈ ms.map RequestMapping.nativeIdx, j ∉ used) ∧
    (ms.map RequestMapping.nativeIdx).Nodup := by
  induction rs generalizing used ms with
  | nil =>
    simp only [resolveGo] at h
    cases h
    simp
  | cons r rest ih =>
    cases hpick : pickNative natives registered r used with
    | none =>
      simp only [resolveGo, hpick] at h
      simp at h
    | some i =>
      simp only [resolveGo, hpick] at h
      cases hrec : resolveGo natives registered rest (i :: used) with
      | error e => rw [hrec] at h; simp at h
      | ok ms2 =>
        rw [hrec] at h
        cases h
        obtain ⟨hmap, hfresh, hnd⟩ := ih (i :: used) ms2 hrec
        have hi : i ∉ used := pickNative_not_used hpick
        refine ⟨by simp [hmap], ?_, ?_⟩
        · intro j hj
          simp only [List.map_cons, List.mem_cons] at hj
          cases hj with
          | inl hji => subst hji; exact hi
          | inr hji =>
            have := hfresh j hji
            intro hu
            exact this (List.mem_cons_of_mem _ hu)
        · simp only [List.map_cons, List.nodup_cons]
          refine ⟨?_, hnd⟩
          intro hmem
          exact hfresh i hmem (List.mem_cons_self i used)

/-- C3: for every request set that `resolve_requests` accepts, the result
has exactly one mapping per element of the request list (same length, one
entry per request in order), and no two mappings reference the same
native profile. -/
theorem resolve_requests_complete_and_disjoint (natives : List NativeProfile)
    (registered : List PixelFormatReg) (requests : List Request)
    (ms : List RequestMapping)
    (h : resolve_requests natives registered requests = Except.ok ms) :
    ms.length = requests.length ∧
    ms.map RequestMapping.request = requests ∧
    (ms.map RequestMapping.nativeIdx).Nodup := by
  obtain ⟨hmap, _, hnd⟩ := resolveGo_ok_spec natives registered requests [] ms h
  refine ⟨?_, hmap, hnd⟩
  have := congrArg List.length hmap
  simpa using this

/-- Witness for C3: two requests resolving against two native profiles. -/
theorem resolve_requests_complete_and_disjoint_witness :
    resolve_requests
      [⟨Rs2Stream.depth, 640, 480, 30, 1⟩, ⟨Rs2Stream.depth, 1280, 720, 15, 1⟩]
      [⟨1, Rs2Stream.depth, 5⟩]
      [⟨Rs2Stream.depth, 640, 480, 30, 5⟩, ⟨Rs2Stream.depth, 1280, 720, 15, 5⟩] =
      Except.ok [⟨⟨Rs2Stream.depth, 640, 480, 30, 5⟩, 0⟩,
                 ⟨⟨Rs2Stream.depth, 1280, 720, 15, 5⟩, 1⟩] ∧
    ([⟨⟨Rs2Stream.depth, 640, 480, 30, 5⟩, 0⟩,
      (⟨⟨Rs2Stream.depth, 1280, 720, 15, 5⟩, 1⟩ : RequestMapping)].length =
      [⟨Rs2Stream.depth, 640, 480, 30, 5⟩,
       (⟨Rs2Stream.depth, 1280, 720, 15, 5⟩ : Request)].length ∧
     [⟨⟨Rs2Stream.depth, 640, 480, 30, 5⟩, 0⟩,
      (⟨⟨Rs2Stream.depth, 1280, 720, 15, 5⟩, 1⟩ : RequestMapping)].map
        RequestMapping.request =
      [⟨Rs2Stream.depth, 640, 480, 30, 5⟩, ⟨Rs2Stream.depth, 1280, 720, 15, 5⟩] ∧
     ([⟨⟨Rs2Stream.depth, 640, 480, 30, 5⟩, 0⟩,
       (⟨⟨Rs2Stream.depth, 1280, 720, 15, 5⟩, 1⟩ : RequestMapping)].map
         RequestMapping.nativeIdx).Nodup) :=
  ⟨by rfl,
   resolve_requests_complete_and_disjoint
     [⟨Rs2Stream.depth, 640, 480, 30, 1⟩, ⟨Rs2Stream.depth, 1280, 720, 15, 1⟩]
     [⟨1, Rs2Stream.depth, 5⟩]
     [⟨Rs2Stream.depth, 640, 480, 30, 5⟩, ⟨Rs2Stream.depth, 1280, 720, 15, 5⟩]
     [⟨⟨Rs2Stream.depth, 640, 480, 30, 5⟩, 0⟩,
      ⟨⟨Rs2Stream.depth, 1280, 720, 15, 5⟩, 1⟩]
     (by rfl)⟩

/-! ## `uvc_sensor::open` atomicity on resolution failure -/

/-- The configuration-relevant state of a sensor
(`sensor_base::_configuration`, `_is_opened`, `_is_streaming`). -/
structure SensorConfigState where
  configuration : List RequestMapping
  is_opened : Bool
  is_streaming : Bool
deriving DecidableEq, Repr

/-- Modelled from the spec: the body of `uvc_sensor::open` is not in the
snapshot; per spec section 4.2 it rejects if already opened, runs the
Request Mapper, on failure leaves state unchanged and reports the
failure, and otherwise installs the full mapping set and marks opened.
The returned pair is (state after the call, reported failure if any). -/
def openSensor (natives : List NativeProfile) (registered : List PixelFormatReg)
    (s : SensorConfigState) (requests : List Request) :
    SensorConfigState × Option RsError :=
  if s.is_opened then (s, some RsError.invalidStateTransition)
  else
    match resolve_requests natives registered requests with
    | Except.error e => (s, some e)
    | Except.ok ms =>
      ({ configuration := ms, is_opened := true, is_streaming := s.is_streaming },
       none)

/-- A request with no compatible native profile dooms the whole
resolution, whatever `used` indices earlier requests have claimed. -/
theorem resolveGo_unmatchable (natives : List NativeProfile)
    (registered : List PixelFormatReg) (rs : List Request) (r : Request)
    (hr : r ∈ rs) (hno : ∀ n ∈ natives, matchesRequest registered r n = false) :
    ∀ used, resolveGo natives registered rs used =
      Except.error RsError.unsupportedRequest := by
  induction rs with
  | nil => cases hr
  | cons hd rest ih =>
    intro used
    rcases List.mem_cons.mp hr with hhd | hrest
    · subst hhd
      have hpick : pickNative natives registered r used = none := by
        unfold pickNative
        rw [List.find?_eq_none]
        intro i hi
        rw [List.mem_range] at hi
        cases hn : natives[i]? with
        | none => simp [hn]
        | some n =>
          have hnn : n ∈ natives := by
            obtain ⟨hi2, rfl⟩ := List.getElem?_eq_some.mp hn
            exact List.getElem_mem ..
          simp [hn, hno n hnn]
      simp [resolveGo, hpick]
    · cases hpick : pickNative natives registered hd used with
      | none => simp [resolveGo, hpick]
      | some i =>
        have := ih hrest (i :: used)
        simp [resolveGo, hpick, this]

/-- C2: if any requested profile has no compatible native profile, a call
to `open` on a not-yet-opened sensor fails with UnsupportedRequest and
applies no partial mapping: the state after the failed call is exactly
the state before it. -/
theorem open_unmatchable_rejects_all (natives : List NativeProfile)
    (registered : List PixelFormatReg) (s : SensorConfigState)
    (requests : List Request) (r : Request)
    (hr : r ∈ requests)
    (hno : ∀ n ∈ natives, matchesRequest registered r n = false)
    (hop : s.is_opened = false) :
    openSensor natives registered s requests =
      (s, some RsError.unsupportedRequest) := by
  unfold openSensor
  rw [hop]
  have := resolveGo_unmatchable natives registered requests r hr hno []
  unfold resolve_requests
  simp [this]

/-- Witness for C2 (the spec's own example scenario): native profiles
depth 640x480 at 30 fps and depth 1280x720 at 15 fps, requests depth
640x480 at 30 fps and the unmatchable depth 640x480 at 15 fps — the whole
call fails and the configuration (empty before) is unchanged. -/
theorem open_unmatchable_rejects_all_witness :
    (⟨Rs2Stream.depth, 640, 480, 15, 5⟩ : Request) ∈
      [⟨Rs2Stream.depth, 640, 480, 30, 5⟩, (⟨Rs2Stream.depth, 640, 480, 15, 5⟩ : Request)] ∧
    (∀ n ∈ [⟨Rs2Stream.depth, 640, 480, 30, 1⟩,
            (⟨Rs2Stream.depth, 1280, 720, 15, 1⟩ : NativeProfile)],
      matchesRequest [⟨1, Rs2Stream.depth, 5⟩] ⟨Rs2Stream.depth, 640, 480, 15, 5⟩ n = false) ∧
    (⟨[], false, false⟩ : SensorConfigState).is_opened = false ∧
    openSensor [⟨Rs2Stream.depth, 640, 480, 30, 1⟩, ⟨Rs2Stream.depth, 1280, 720, 15, 1⟩]
      [⟨1, Rs2Stream.depth, 5⟩] ⟨[], false, false⟩
      [⟨Rs2Stream.depth, 640, 480, 30, 5⟩, ⟨Rs2Stream.depth, 640, 480, 15, 5⟩] =
      (⟨[], false, false⟩, some RsError.unsupportedRequest) :=
  ⟨by decide, by decide, by decide,
   open_unmatchable_rejects_all _ _ _ _ ⟨Rs2Stream.depth, 640, 480, 15, 5⟩
     (by decide) (by decide) (by decide)⟩

/-! ## Sensor lifecycle state machine (`_is_opened` / `_is_streaming`) -/

/-- The lifecycle flags of `sensor_base`
(src/src/sensor.h lines 84-85): `_is_opened` and `_is_streaming`. -/
structure LifeState where
  is_opened : Bool
  is_streaming : Bool
deriving DecidableEq, Repr

/-- The closed state: not opened, not streaming. -/
def closedS : LifeState := ⟨false, false⟩

/-- The opened-not-streaming state. -/
def openedS : LifeState := ⟨true, false⟩

/-- The streaming state (streaming implies opened). -/
def streamingS : LifeState := ⟨true, true⟩

/-- One lifecycle operation. -/
inductive LifeOp
  | openOp
  | startOp
  | stopOp
  | closeOp
deriving DecidableEq, Repr

/-- Modelled from the spec: the bodies of
`hid_sensor`/`uvc_sensor` `open`/`start`/`stop`/`close` are not in the
snapshot; per spec sections 3 and 4.2, `open` is rejected if the sensor
is already opened, `start` is valid only from opened-not-streaming,
`stop` only from streaming, `close` only from opened-not-streaming, and
an out-of-sequence call fails with InvalidStateTransition leaving the
flags unchanged. -/
def lifeStep (s : LifeState) : LifeOp → LifeState × Option RsError
  | LifeOp.openOp =>
    if s.is_opened then (s, some RsError.invalidStateTransition)
    else ({ is_opened := true, is_streaming := false }, none)
  | LifeOp.startOp =>
    if s.is_streaming then (s, some RsError.invalidStateTransition)
    else if s.is_opened then ({ is_opened := s.is_opened, is_streaming := true }, none)
    else (s, some RsError.invalidStateTransition)
  | LifeOp.stopOp =>
    if s.is_streaming then ({ is_opened := s.is_opened, is_streaming := false }, none)
    else (s, some RsError.invalidStateTransition)
  | LifeOp.closeOp =>
    if s.is_streaming then (s, some RsError.invalidStateTransition)
    else if s.is_opened then ({ is_opened := false, is_streaming := false }, none)
    else (s, some RsError.invalidStateTransition)

/-- Run a sequence of lifecycle operations, keeping the state a failing
operation left unchanged. -/
def runLife (s : LifeState) : List LifeOp → LifeState
  | [] => s
  | op :: ops => runLife (lifeStep s op).1 ops

theorem lifeStep_mem (s : LifeState) (op : LifeOp)
    (hs : s = closedS ∨ s = openedS ∨ s = streamingS) :
    (lifeStep s op).1 = closedS ∨ (lifeStep s op).1 = openedS ∨
      (lifeStep s op).1 = streamingS := by
  rcases hs with h | h | h <;> subst h <;> cases op <;> decide

theorem runLife_mem (ops : List LifeOp) (s : LifeState)
    (hs : s = closedS ∨ s = openedS ∨ s = streamingS) :
    runLife s ops = closedS ∨ runLife s ops = openedS ∨
      runLife s ops = streamingS := by
  induction ops generalizing s with
  | nil => simpa [runLife] using hs
  | cons op rest ih => exact ih (lifeStep s op).1 (lifeStep_mem s op hs)

/-- C5: from a freshly constructed sensor, every reachable flag state is
one of closed, opened-not-streaming, streaming; each lifecycle operation
succeeds exactly from its designated state (`open` from closed — it is
rejected if already opened, `start` from opened-not-streaming, `stop`
from streaming, `close` from opened-not-streaming, in particular rejected
while streaming); and an out-of-sequence call fails with
InvalidStateTransition and leaves the state unchanged. -/
theorem sensor_lifecycle_state_machine (ops : List LifeOp) (s : LifeState)
    (op : LifeOp) (hs : s = closedS ∨ s = openedS ∨ s = streamingS) :
    (runLife closedS ops = closedS ∨ runLife closedS ops = openedS ∨
      runLife closedS ops = streamingS) ∧
    ((lifeStep s op).2 = none ↔
      ((op = LifeOp.openOp ∧ s = closedS) ∨
       (op = LifeOp.startOp ∧ s = openedS) ∨
       (op = LifeOp.stopOp ∧ s = streamingS) ∨
       (op = LifeOp.closeOp ∧ s = openedS))) ∧
    ((lifeStep s op).2 ≠ none →
      (lifeStep s op).1 = s ∧
      (lifeStep s op).2 = some RsError.invalidStateTransition) := by
  refine ⟨runLife_mem ops closedS (Or.inl rfl), ?_, ?_⟩
  · rcases hs with h | h | h <;> subst h <;> cases op <;> decide
  · rcases hs with h | h | h <;> subst h <;> cases op <;> decide

/-- Witness for C5: after `open` then `start` the sensor is streaming,
and `close` from the streaming state is rejected with
InvalidStateTransition, leaving the state streaming. -/
theorem sensor_lifecycle_state_machine_witness :
    (streamingS = closedS ∨ streamingS = openedS ∨ streamingS = streamingS) ∧
    ((runLife closedS [LifeOp.openOp, LifeOp.startOp] = closedS ∨
      runLife closedS [LifeOp.openOp, LifeOp.startOp] = openedS ∨
      runLife closedS [LifeOp.openOp, LifeOp.startOp] = streamingS) ∧
     ((lifeStep streamingS LifeOp.closeOp).2 = none ↔
       ((LifeOp.closeOp = LifeOp.openOp ∧ streamingS = closedS) ∨
        (LifeOp.closeOp = LifeOp.startOp ∧ streamingS = openedS) ∨
        (LifeOp.closeOp = LifeOp.stopOp ∧ streamingS = streamingS) ∨
        (LifeOp.closeOp = LifeOp.closeOp ∧ streamingS = openedS))) ∧
     ((lifeStep streamingS LifeOp.closeOp).2 ≠ none →
       (lifeStep streamingS LifeOp.closeOp).1 = streamingS ∧
       (lifeStep streamingS LifeOp.closeOp).2 =
         some RsError.invalidStateTransition)) :=
  ⟨by decide,
   sensor_lifecycle_state_machine [LifeOp.openOp, LifeOp.startOp] streamingS
     LifeOp.closeOp (by decide)⟩

/-! ## HID fps-to-sampling-frequency lookup -/

/-- The per-stream sampling table
`hid_sensor::_fps_and_sampling_frequency_per_rs2_stream`
(src/src/sensor.h line 148): for each stream kind, a map from fps to
device sampling frequency. -/
abbrev FpsTable := List (Rs2Stream × List (Nat × Nat))

/-- Modelled from the spec: the body of
`hid_sensor::fps_to_sampling_frequency` is not in the snapshot; per spec
sections 4.5 and 7 it looks the (stream, fps) pair up in the per-stream
table supplied at construction and fails with UnknownFrequency when no
entry exists for that combination. -/
def fps_to_sampling_frequency (table : FpsTable) (stream : Rs2Stream)
    (fps : Nat) : Except RsError Nat :=
  match lookupA table stream with
  | none => Except.error RsError.unknownFrequency
  | some m =>
    match lookupA m fps with
    | none => Except.error RsError.unknownFrequency
    | some freq => Except.ok freq

/-- A (stream, fps) pair is present in the table with frequency `freq`. -/
def presentPair (table : FpsTable) (stream : Rs2Stream) (fps freq : Nat) : Prop :=
  ∃ m, lookupA table stream = some m ∧ lookupA m fps = some freq

/-- Map every request through the fps lookup; the first miss fails the
whole sequence. -/
def mapFrequencies (table : FpsTable) :
    List (Rs2Stream × Nat) → Except RsError (List ((Rs2Stream × Nat) × Nat))
  | [] => Except.ok []
  | r :: rs =>
    match fps_to_sampling_frequency table r.1 r.2 with
    | Except.error e => Except.error e
    | Except.ok freq =>
      match mapFrequencies table rs with
      | Except.error e => Except.error e
      | Except.ok rest => Except.ok ((r, freq) :: rest)

/-- Modelled from the spec: the fps-translation slice of
`hid_sensor::open` — every requested (stream, fps) pair is translated
through the sampling table before anything is configured, so a lookup
miss fails the call and leaves the configured set unchanged.  Returns
(configured set after the call, reported failure if any). -/
def hidOpenFrequencies (table : FpsTable)
    (configured : List ((Rs2Stream × Nat) × Nat))
    (requests : List (Rs2Stream × Nat)) :
    List ((Rs2Stream × Nat) × Nat) × Option RsError :=
  match mapFrequencies table requests with
  | Except.error e => (configured, some e)
  | Except.ok ms => (configured ++ ms, none)

/-- The fps lookup only ever fails with UnknownFrequency. -/
theorem fps_lookup_error_shape (table : FpsTable) (stream : Rs2Stream)
    (fps : Nat) (e : RsError)
    (h : fps_to_sampling_frequency table stream fps = Except.error e) :
    e = RsError.unknownFrequency := by
  cases h1 : lookupA table stream with
  | none =>
    simp only [fps_to_sampling_frequency, h1] at h
    cases h; rfl
  | some m =>
    cases h2 : lookupA m fps with
    | none =>
      simp only [fps_to_sampling_frequency, h1, h2] at h
      cases h; rfl
    | some freq =>
      simp only [fps_to_sampling_frequency, h1, h2] at h
      cases h

/-- A request whose (stream, fps) pair is absent dooms the whole
frequency translation. -/
theorem mapFrequencies_miss (table : FpsTable) (rs : List (Rs2Stream × Nat))
    (r : Rs2Stream × Nat) (hr : r ∈ rs)
    (hmiss : ∀ freq, ¬ presentPair table r.1 r.2 freq) :
    mapFrequencies table rs = Except.error RsError.unknownFrequency := by
  have hfail : fps_to_sampling_frequency table r.1 r.2 =
      Except.error RsError.unknownFrequency := by
    cases h1 : lookupA table r.1 with
    | none => simp only [fps_to_sampling_frequency, h1]
    | some m =>
      cases h2 : lookupA m r.2 with
      | none => simp only [fps_to_sampling_frequency, h1, h2]
      | some freq => exact absurd ⟨m, h1, h2⟩ (hmiss freq)
  induction rs with
  | nil => cases hr
  | cons hd rest ih =>
    rcases List.mem_cons.mp hr with hhd | hrest
    · subst hhd
      simp [mapFrequencies, hfail]
    · cases hh : fps_to_sampling_frequency table hd.1 hd.2 with
      | error e =>
        have := fps_lookup_error_shape table hd.1 hd.2 e hh
        subst this
        simp [mapFrequencies, hh]
      | ok freq =>
        simp [mapFrequencies, hh, ih hrest]

/-- C6: for every (stream, fps) pair present in the sampling table the
lookup returns exactly the configured sampling frequency; for every pair
absent from the table it fails with UnknownFrequency; and an absent pair
among the requests fails the open-time translation, leaving the
configured stream set unchanged. -/
theorem fps_lookup_exact (table : FpsTable) (stream : Rs2Stream) (fps : Nat) :
    (∀ freq, fps_to_sampling_frequency table stream fps = Except.ok freq ↔
      presentPair table stream fps freq) ∧
    (fps_to_sampling_frequency table stream fps =
        Except.error RsError.unknownFrequency ↔
      ∀ freq, ¬ presentPair table stream fps freq) ∧
    (∀ configured requests, (stream, fps) ∈ requests →
      (∀ freq, ¬ presentPair table stream fps freq) →
      hidOpenFrequencies table configured requests =
        (configured, some RsError.unknownFrequency)) := by
  refine ⟨?_, ?_, ?_⟩
  · intro freq
    constructor
    · intro h
      cases h1 : lookupA table stream with
      | none =>
        simp only [fps_to_sampling_frequency, h1] at h
        cases h
      | some m =>
        cases h2 : lookupA m fps with
        | none =>
          simp only [fps_to_sampling_frequency, h1, h2] at h
          cases h
        | some f2 =>
          simp only [fps_to_sampling_frequency, h1, h2] at h
          cases h
          exact ⟨m, h1, h2⟩
    · rintro ⟨m, h1, h2⟩
      simp only [fps_to_sampling_frequency, h1, h2]
  · constructor
    · intro h freq hp
      rcases hp with ⟨m, h1, h2⟩
      simp only [fps_to_sampling_frequency, h1, h2] at h
      cases h
    · intro hmiss
      cases h1 : lookupA table stream with
      | none => simp only [fps_to_sampling_frequency, h1]
      | some m =>
        cases h2 : lookupA m fps with
        | none => simp only [fps_to_sampling_frequency, h1, h2]
        | some freq => exact absurd ⟨m, h1, h2⟩ (hmiss freq)
  · intro configured requests hr hmiss
    unfold hidOpenFrequencies
    rw [mapFrequencies_miss table requests (stream, fps) hr hmiss]

/-- Witness for C6: a table with gyro entries 200 fps to 250 Hz and
400 fps to 500 Hz — the present pair (gyro, 200) yields exactly 250, the
absent pair (accel, 200) fails and configures nothing. -/
theorem fps_lookup_exact_witness :
    fps_to_sampling_frequency [(Rs2Stream.gyro, [(200, 250), (400, 500)])]
      Rs2Stream.gyro 200 = Except.ok 250 ∧
    fps_to_sampling_frequency [(Rs2Stream.gyro, [(200, 250), (400, 500)])]
      Rs2Stream.accel 200 = Except.error RsError.unknownFrequency ∧
    hidOpenFrequencies [(Rs2Stream.gyro, [(200, 250), (400, 500)])] []
      [(Rs2Stream.accel, 200)] = ([], some RsError.unknownFrequency) := by
  have hg := fps_lookup_exact [(Rs2Stream.gyro, [(200, 250), (400, 500)])]
    Rs2Stream.gyro 200
  have ha := fps_lookup_exact [(Rs2Stream.gyro, [(200, 250), (400, 500)])]
    Rs2Stream.accel 200
  refine ⟨(hg.1 250).mpr ⟨[(200, 250), (400, 500)], by decide, by decide⟩, ?_, ?_⟩
  · exact ha.2.1.mpr (by
      intro freq hp
      rcases hp with ⟨m, h1, h2⟩
      simp [lookupA] at h1)
  · exact ha.2.2 [] [(Rs2Stream.accel, 200)] (by decide) (by
      intro freq hp
      rcases hp with ⟨m, h1, h2⟩
      simp [lookupA] at h1)

/-! ## HID per-physical-sensor configuration tracking -/

/-- Modelled from the spec: the body of `hid_sensor::close` is not in the
snapshot; per spec section 4.5 the sensor tracks, per physical sensor
name, which logical streams are currently configured
(`_configured_profiles` / `_is_configured_stream`, src/src/sensor.h lines
151-152), and closing a logical stream removes it from the tracking set
and deactivates the physical endpoint only once no logical stream of that
name remains configured.  Returns (remaining configured set, whether the
physical endpoint named `name` was deactivated by this close). -/
def closeLogical (configured : List (String × Rs2Stream)) (name : String)
    (stream : Rs2Stream) : List (String × Rs2Stream) × Bool :=
  let remaining := configured.filter (fun e => decide (e ≠ (name, stream)))
  (remaining, decide (remaining.countP (fun e => decide (e.1 = name)) = 0))

/-- C7: while another logical stream of the same physical sensor name
remains configured, closing one logical stream keeps the physical
endpoint active (not deactivated) and the other stream configured; and
closing a logical stream that is the last configured stream of its
physical sensor name deactivates the endpoint. -/
theorem hid_close_deactivates_last (configured : List (String × Rs2Stream))
    (name : String) (s1 s2 : Rs2Stream)
    (h1 : (name, s2) ∈ configured) (h2 : s2 ≠ s1) :
    (closeLogical configured name s1).2 = false ∧
    (name, s2) ∈ (closeLogical configured name s1).1 ∧
    (∀ conf2 : List (String × Rs2Stream),
      (∀ e ∈ conf2, e.1 = name → e.2 = s2) →
      (closeLogical conf2 name s2).2 = true) := by
  have hmem : (name, s2) ∈
      configured.filter (fun e => decide (e ≠ (name, s1))) := by
    rw [List.mem_filter]
    refine ⟨h1, ?_⟩
    simp
    exact h2
  refine ⟨?_, ?_, ?_⟩
  · simp only [closeLogical]
    have hpos : 0 <
        (configured.filter (fun e => decide (e ≠ (name, s1)))).countP
          (fun e => decide (e.1 = name)) := by
      rw [List.countP_pos_iff]
      exact ⟨(name, s2), hmem, by simp⟩
    rw [decide_eq_false_iff_not]
    omega
  · simpa only [closeLogical] using hmem
  · intro conf2 hall
    simp only [closeLogical]
    rw [decide_eq_true_iff, List.countP_eq_zero]
    intro e he
    obtain ⟨a, b⟩ := e
    rw [List.mem_filter] at he
    obtain ⟨he1, he2⟩ := he
    simp only [decide_eq_true_iff] at he2 ⊢
    intro hname
    have heq : (a, b) = (name, s2) := by
      rw [Prod.mk.injEq]
      exact ⟨hname, hall (a, b) he1 hname⟩
    exact he2 heq

/-- Witness for C7 (the spec's example): physical sensor "motion_module"
backs gyro and accel; closing gyro keeps the endpoint active with accel
still configured, and closing the last remaining stream deactivates. -/
theorem hid_close_deactivates_last_witness :
    ("motion_module", Rs2Stream.accel) ∈
      [("motion_module", Rs2Stream.gyro), ("motion_module", Rs2Stream.accel)] ∧
    Rs2Stream.accel ≠ Rs2Stream.gyro ∧
    ((closeLogical [("motion_module", Rs2Stream.gyro),
        ("motion_module", Rs2Stream.accel)] "motion_module" Rs2Stream.gyro).2 = false ∧
     ("motion_module", Rs2Stream.accel) ∈
       (closeLogical [("motion_module", Rs2Stream.gyro),
         ("motion_module", Rs2Stream.accel)] "motion_module" Rs2Stream.gyro).1 ∧
     (∀ conf2 : List (String × Rs2Stream),
       (∀ e ∈ conf2, e.1 = "motion_module" → e.2 = Rs2Stream.accel) →
       (closeLogical conf2 "motion_module" Rs2Stream.accel).2 = true)) :=
  ⟨by decide, by decide,
   hid_close_deactivates_last
     [("motion_module", Rs2Stream.gyro), ("motion_module", Rs2Stream.accel)]
     "motion_module" Rs2Stream.gyro Rs2Stream.accel (by decide) (by decide)⟩

/-! ## Timestamp Reader reset across streaming sessions -/

/-- The mutable state of a `frame_timestamp_reader`: the running frame
counter (modelled from the spec, section 3 FrameMetadata: a
monotonically-intended counter, zeroed on reset). -/
structure TimestampReader where
  counter : Nat
deriving DecidableEq, Repr

/-- `frame_timestamp_reader::reset` (src/src/sensor.h line 108): clears
internal state, zeroing the counter. -/
def resetReader (_ : TimestampReader) : TimestampReader := ⟨0⟩

/-- Deliver one frame: `get_frame_counter` observes the current counter
and the reader advances. -/
def readFrameCounter (r : TimestampReader) : Nat × TimestampReader :=
  (r.counter, ⟨r.counter + 1⟩)

/-- Observe `k` consecutive frames, collecting the counters delivered. -/
def observeFrames (r : TimestampReader) : Nat → List Nat × TimestampReader
  | 0 => ([], r)
  | k + 1 =>
    let c := (readFrameCounter r).1
    let r1 := (readFrameCounter r).2
    ((c :: (observeFrames r1 k).1), (observeFrames r1 k).2)

/-- The reader-facing calls `uvc_sensor::start` performs, in order.
Modelled from the spec: the body of `uvc_sensor::start` is not in the
snapshot; per spec sections 4.2 and 4.4 it resets the active Timestamp
Reader exactly once before instructing the backend to deliver frames. -/
inductive ReaderCall
  | resetCall
  | frameCall
deriving DecidableEq, Repr

/-- The sequence of reader calls issued by one `start()` before the first
frame is delivered. -/
def startReaderCalls : List ReaderCall := [ReaderCall.resetCall]

/-- The effect of `start()` on the active Timestamp Reader: the one
reset. -/
def startSensorReader (r : TimestampReader) : TimestampReader := resetReader r

/-- Observing `k` frames from a reader at counter `n` yields the counters
`n, n+1, ...`: the register advances by `k`, every observation lies in
`[n, n+k)`, and the first observation is exactly `n`. -/
theorem observeFrames_spec (k n : Nat) :
    (observeFrames ⟨n⟩ k).2 = ⟨n + k⟩ ∧
    (∀ c ∈ (observeFrames ⟨n⟩ k).1, n ≤ c ∧ c < n + k) ∧
    (0 < k → (observeFrames ⟨n⟩ k).1.head? = some n) := by
  induction k generalizing n with
  | zero => simp [observeFrames]
  | succ k ih =>
    obtain ⟨ih1, ih2, _⟩ := ih (n + 1)
    refine ⟨?_, ?_, ?_⟩
    · simp only [observeFrames, readFrameCounter]
      rw [ih1]
      congr 1
      omega
    · intro c hc
      simp only [observeFrames, readFrameCounter, List.mem_cons] at hc
      rcases hc with hc | hc
      · omega
      · have := ih2 c hc
        omega
    · intro _
      simp [observeFrames, readFrameCounter]

/-- C8: `start()` issues exactly one reset before frames are delivered,
so after `start()`, `k` frames, `stop()`, `start()`, the counter observed
immediately after the second start is 0 — equal to (hence not above) the
first counter observed in the first session, below every counter of the
first session's continuation, and not the continuation value the first
session would have produced next. -/
theorem timestamp_reader_reset_per_start (r0 : TimestampReader) (k : Nat)
    (hk : 0 < k) :
    startReaderCalls.countP (fun c => decide (c = ReaderCall.resetCall)) = 1 ∧
    (observeFrames (startSensorReader r0) k).1.head? = some 0 ∧
    (observeFrames (startSensorReader
        (observeFrames (startSensorReader r0) k).2) 1).1.head? = some 0 ∧
    (∀ c ∈ (observeFrames (startSensorReader r0) k).1,
      ∀ c2 ∈ (observeFrames (startSensorReader
        (observeFrames (startSensorReader r0) k).2) 1).1, c2 ≤ c) ∧
    (observeFrames (startSensorReader
        (observeFrames (startSensorReader r0) k).2) 1).1.head? ≠
      some ((observeFrames (startSensorReader r0) k).2.counter) := by
  obtain ⟨h2, hbounds, hhead⟩ := observeFrames_spec k 0
  have hreader : startSensorReader r0 = ⟨0⟩ := rfl
  rw [hreader]
  have hsecond : startSensorReader (observeFrames (⟨0⟩ : TimestampReader) k).2 =
      ⟨0⟩ := rfl
  rw [hsecond]
  have hone : (observeFrames (⟨0⟩ : TimestampReader) 1).1.head? = some 0 := by
    simp [observeFrames, readFrameCounter]
  refine ⟨by decide, by simpa using hhead hk, hone, ?_, ?_⟩
  · intro c hc c2 hc2
    simp [observeFrames, readFrameCounter] at hc2
    omega
  · rw [hone, h2]
    simp
    omega

/-- Witness for C8: a reader mid-session at counter 5, three frames in
the first session. -/
theorem timestamp_reader_reset_per_start_witness :
    0 < 3 ∧
    (startReaderCalls.countP (fun c => decide (c = ReaderCall.resetCall)) = 1 ∧
     (observeFrames (startSensorReader ⟨5⟩) 3).1.head? = some 0 ∧
     (observeFrames (startSensorReader
         (observeFrames (startSensorReader ⟨5⟩) 3).2) 1).1.head? = some 0 ∧
     (∀ c ∈ (observeFrames (startSensorReader ⟨5⟩) 3).1,
       ∀ c2 ∈ (observeFrames (startSensorReader
         (observeFrames (startSensorReader ⟨5⟩) 3).2) 1).1, c2 ≤ c) ∧
     (observeFrames (startSensorReader
         (observeFrames (startSensorReader ⟨5⟩) 3).2) 1).1.head? ≠
       some ((observeFrames (startSensorReader ⟨5⟩) 3).2.counter)) :=
  ⟨by decide, timestamp_reader_reset_per_start ⟨5⟩ 3 (by decide)⟩

end Librealsense
